import Mathlib

/-!
Verification of the BioWatch detection-history store and aggregation layer.

The embedding mirrors `src/data_manager.py` (history store: load, append,
clear, export) and the report-level aggregations in `src/app.py`
(species summary, location analysis, detection timeline).

Modelling conventions:
* Timestamps in the store are strings in the fixed format
  `YYYY-MM-DD HH:MM:SS`; comparison of the parsed datetimes
  (`pd.to_datetime`) is order-isomorphic to lexicographic comparison of a
  (date, time-of-day) pair, so a timestamp is embedded as the structure
  `DateTime` below with that lexicographic order, and truncation to the
  calendar date (`.dt.date`) is the `date` field.
* `confidence`, `latitude`, `longitude` are embedded as rationals.
* A JSON object field that may be absent is an `Option`; `none` means the
  key is absent from the stored object.
* The history file on disk is `StoreFile`: absent, present but
  unreadable/corrupt, or a valid list of entries.  File I/O is modelled by
  explicit state passing of the `StoreFile`.
-/

namespace BioWatch

/-- A parsed timestamp: `date` encodes `YYYYMMDD`, `time` the seconds
since midnight.  For valid dates numeric order on `date` agrees with
calendar order, so the pair ordered lexicographically matches
`pd.to_datetime` comparison of the original strings. -/
structure DateTime where
  date : Nat
  time : Nat
deriving DecidableEq, Repr

/-- Chronological order on parsed timestamps (lexicographic on
(date, time)). -/
def DateTime.le (a b : DateTime) : Prop :=
  a.date < b.date ∨ (a.date = b.date ∧ a.time ≤ b.time)

instance (a b : DateTime) : Decidable (DateTime.le a b) := by
  unfold DateTime.le; infer_instance

/-- One stored detection event, i.e. one element of the JSON array in
`detection_history.json`, as built by `save_detection_results` in
`src/data_manager.py` (lines 26-56).  The first nine fields are always
written; the seven trailing `Option` fields are written only when the
producer supplied them (`none` = key absent from the JSON object). -/
structure Entry where
  detection_id : String
  timestamp : DateTime
  image_name : String
  species : String
  confidence : ℚ
  count : Nat
  latitude : Option ℚ
  longitude : Option ℚ
  location_name : String
  scientific_name : Option String
  weight_range : Option String
  height_range : Option String
  conservation_status : Option String
  habitat : Option String
  description : Option String
  detected_at : Option String
deriving DecidableEq, Repr

/-- One detection result handed to `save_detection_results` by the
detector (`results` list element).  `species` and `confidence` are
accessed unconditionally (`result["species"]`, `result["confidence"]`);
`count` via `result.get("count", 1)`; the descriptive fields are copied
only when present. -/
structure DetectionResult where
  species : String
  confidence : ℚ
  count : Option Nat
  scientific_name : Option String
  weight_range : Option String
  height_range : Option String
  conservation_status : Option String
  habitat : Option String
  description : Option String
  detected_at : Option String
deriving DecidableEq, Repr

/-- The `location` dict argument of `save_detection_results`: read with
`location.get("latitude")`, `location.get("longitude")`,
`location.get("location_name", "Unknown")`. -/
structure Location where
  latitude : Option ℚ
  longitude : Option ℚ
  location_name : Option String
deriving DecidableEq, Repr

/-- State of the backing file `detection_history.json`. -/
inductive StoreFile where
  | absent : StoreFile
  | corrupt : StoreFile
  | valid : List Entry → StoreFile
deriving DecidableEq, Repr

/-- `load_detection_history` (`src/data_manager.py` lines 62-80): if the
file does not exist it is created holding `[]` and `[]` is returned; if
reading or JSON-decoding fails the file is left as is and `[]` is
returned; otherwise the parsed list is returned.  The result pairs the
returned history with the file state after the call. -/
def load_detection_history : StoreFile → List Entry × StoreFile
  | StoreFile.absent => ([], StoreFile.valid [])
  | StoreFile.corrupt => ([], StoreFile.corrupt)
  | StoreFile.valid l => (l, StoreFile.valid l)

/-- The `entry` dict built for one `result` inside the loop of
`save_detection_results` (`src/data_manager.py` lines 28-54): fixed
fields from the call arguments, `count` defaulting to 1, location fields
via `.get`, and each optional descriptive field copied exactly when the
result carries it. -/
def mkEntry (detection_id : String) (timestamp : DateTime) (image_name : String)
    (location : Location) (result : DetectionResult) : Entry :=
  { detection_id := detection_id
    timestamp := timestamp
    image_name := image_name
    species := result.species
    confidence := result.confidence
    count := result.count.getD 1
    latitude := location.latitude
    longitude := location.longitude
    location_name := location.location_name.getD "Unknown"
    scientific_name := result.scientific_name
    weight_range := result.weight_range
    height_range := result.height_range
    conservation_status := result.conservation_status
    habitat := result.habitat
    description := result.description
    detected_at := result.detected_at }

/-- `save_detection_results` (`src/data_manager.py` lines 11-60): loads
the current history (creating the file when absent, treating a corrupt
file as empty), appends one entry per result in input order, and
rewrites the whole file with the updated list. -/
def save_detection_results (detection_id : String) (timestamp : DateTime)
    (image_name : String) (location : Location)
    (results : List DetectionResult) (s : StoreFile) : StoreFile :=
  let history := (load_detection_history s).1
  StoreFile.valid
    (history ++ results.map (mkEntry detection_id timestamp image_name location))

/-- `clear_detection_history` (`src/data_manager.py` lines 178-191):
writes `[]` to the history file and returns `True`; if the write raises,
catches the exception and returns `False`.  `writeOk` models whether the
file write succeeds. -/
def clear_detection_history (writeOk : Bool) (s : StoreFile) : Bool × StoreFile :=
  if writeOk then (true, StoreFile.valid []) else (false, s)

/-- Export file format (`format` argument of `export_detection_data`):
anything other than `"csv"` selects the JSON branch; both branches write
the same filtered rows and return the output path. -/
inductive ExportFormat where
  | csv : ExportFormat
  | json : ExportFormat
deriving DecidableEq, Repr

/-- The `start_date` filter of `export_detection_data`
(`src/data_manager.py` lines 155-156): applied only when a start date is
given, keeping rows with `datetime >= start_date`. -/
def filterStart (start_date : Option DateTime) (l : List Entry) : List Entry :=
  match start_date with
  | none => l
  | some d => l.filter (fun e => decide (DateTime.le d e.timestamp))

/-- The `end_date` filter of `export_detection_data`
(`src/data_manager.py` lines 157-158): applied only when an end date is
given, keeping rows with `datetime <= end_date`. -/
def filterEnd (end_date : Option DateTime) (l : List Entry) : List Entry :=
  match end_date with
  | none => l
  | some d => l.filter (fun e => decide (DateTime.le e.timestamp d))

/-- `export_detection_data` (`src/data_manager.py` lines 131-176): loads
the history; when it is empty returns `None`; otherwise applies the two
optional date filters and writes the surviving rows to a freshly named
file (timestamped name, CSV or JSON per `format`), returning its path.
The model returns `none` for the `None` path and `some rows` for a
written file containing exactly `rows`; the wall-clock-derived file name
is abstracted away. -/
def export_detection_data (s : StoreFile) (start_date end_date : Option DateTime)
    (fmt : ExportFormat) : Option (List Entry) :=
  let history := (load_detection_history s).1
  if history = [] then none
  else
    let _ := fmt
    some (filterEnd end_date (filterStart start_date history))

/-!
## Group-by machinery

`pandas.DataFrame.groupby(keys).agg(...)` with the default `sort=True`
computes one output row per distinct key value, in sorted key order; each
aggregate is computed over the rows carrying that key.  The embedding
below takes the distinct key values (`List.dedup` keeps first
occurrences), sorts them, and maps each key to the aggregate over the
rows matching it. -/

/-- Distinct key values of `l` under `key` (first-occurrence order). -/
def keysOf {α κ : Type} [DecidableEq κ] (key : α → κ) (l : List α) : List κ :=
  (l.map key).dedup

/-- The rows of `l` whose key is `k` (one group of the group-by). -/
def grp {α κ : Type} [DecidableEq κ] (key : α → κ) (k : κ) (l : List α) : List α :=
  l.filter (fun a => decide (key a = k))

/-- Distinct key values of `l`, sorted by `r` (pandas sorts group keys). -/
def sortedKeysOf {α κ : Type} [DecidableEq κ] (r : κ → κ → Prop) [DecidableRel r]
    (key : α → κ) (l : List α) : List κ :=
  List.insertionSort r (keysOf key l)

theorem mem_keysOf {α κ : Type} [DecidableEq κ] {key : α → κ} {l : List α} {k : κ} :
    k ∈ keysOf key l ↔ ∃ a ∈ l, key a = k := by
  simp [keysOf, List.mem_dedup]

theorem mem_grp {α κ : Type} [DecidableEq κ] {key : α → κ} {k : κ} {l : List α} {a : α} :
    a ∈ grp key k l ↔ a ∈ l ∧ key a = k := by
  simp [grp, List.mem_filter]

theorem mem_sortedKeysOf {α κ : Type} [DecidableEq κ] {r : κ → κ → Prop} [DecidableRel r]
    {key : α → κ} {l : List α} {k : κ} :
    k ∈ sortedKeysOf r key l ↔ ∃ a ∈ l, key a = k := by
  rw [sortedKeysOf, (List.perm_insertionSort r (keysOf key l)).mem_iff]
  exact mem_keysOf

theorem nodup_sortedKeysOf {α κ : Type} [DecidableEq κ] {r : κ → κ → Prop} [DecidableRel r]
    {key : α → κ} {l : List α} : (sortedKeysOf r key l).Nodup :=
  ((List.perm_insertionSort r (keysOf key l)).nodup_iff).mpr (List.nodup_dedup _)

/-- Code-point lexicographic comparison of character lists: the order
Python (and hence pandas group-key sorting) uses on strings. -/
def charListLe : List Char → List Char → Bool
  | [], _ => true
  | _ :: _, [] => false
  | a :: as, b :: bs =>
    if a.toNat < b.toNat then true
    else if b.toNat < a.toNat then false
    else charListLe as bs

/-- Code-point lexicographic order on strings. -/
def strLe (a b : String) : Prop := charListLe a.data b.data = true

instance (a b : String) : Decidable (strLe a b) := by
  unfold strLe; infer_instance

/-- Strict code-point lexicographic comparison of character lists. -/
def charListLt : List Char → List Char → Bool
  | [], [] => false
  | [], _ :: _ => true
  | _ :: _, [] => false
  | a :: as, b :: bs =>
    if a.toNat < b.toNat then true
    else if b.toNat < a.toNat then false
    else charListLt as bs

/-- Strict code-point lexicographic order on strings. -/
def strLt (a b : String) : Prop := charListLt a.data b.data = true

instance (a b : String) : Decidable (strLt a b) := by
  unfold strLt; infer_instance

/-!
## Species summary (`get_species_summary`, `src/data_manager.py` 82-105;
the Species Summary report in `src/app.py` 362-379 computes the same
aggregates under the display names Total Count / Avg. Confidence /
Detection Events)
-/

/-- One row of the species summary: `count` = sum of the group's `count`
column, `avg_confidence` = mean of its `confidence` column, `detections`
= pandas `count` of its `detection_id` column (number of non-null
values; `detection_id` is always present, so the row count). -/
structure SpeciesRow where
  species : String
  count : Nat
  avg_confidence : ℚ
  detections : Nat
deriving DecidableEq, Repr

/-- `get_species_summary` (`src/data_manager.py` 82-105) applied to a
loaded history: empty history gives the empty summary; otherwise group
by `species` (keys sorted ascending, pandas default) and aggregate. -/
def get_species_summary (history : List Entry) : List SpeciesRow :=
  if history = [] then []
  else
    (sortedKeysOf strLe (fun e : Entry => e.species) history).map (fun sp =>
      let g := grp (fun e : Entry => e.species) sp history
      { species := sp
        count := (g.map (fun e => e.count)).sum
        avg_confidence := (g.map (fun e => e.confidence)).sum / (g.length : ℚ)
        detections := (g.map (fun e => e.detection_id)).length })

/-!
## Location summaries

Two distinct aggregations exist in the source.  `get_location_summary`
(`src/data_manager.py` 107-129) groups by the triple
`["location_name", "latitude", "longitude"]` and reports
`species_count` (`nunique` of species) and `total_detections`
(sum of `count`) — no image aggregate.  The Location Analysis report
(`src/app.py` 398-411) groups by the pair `["latitude", "longitude"]`
only and reports `unique_species`, `total_detections` and
`images_analyzed` (`nunique` of `image_name`).

pandas drops rows whose group key is NaN (`dropna=True` default), i.e.
rows with an absent latitude or longitude take part in neither grouping.
-/

/-- Rows usable as group-by input for the location groupings: both
coordinates present (pandas drops NaN group keys). -/
def locRows (history : List Entry) : List Entry :=
  history.filter (fun e => e.latitude.isSome && e.longitude.isSome)

/-- The `["location_name", "latitude", "longitude"]` group key of
`get_location_summary`.  Only applied to `locRows` output, where the
`getD` defaults are never reached. -/
def locKey (e : Entry) : String × ℚ × ℚ :=
  (e.location_name, e.latitude.getD 0, e.longitude.getD 0)

/-- Lexicographic order on the triple key (pandas sorts composite group
keys component-wise). -/
def LocLe (a b : String × ℚ × ℚ) : Prop :=
  strLt a.1 b.1 ∨ (a.1 = b.1 ∧ (a.2.1 < b.2.1 ∨ (a.2.1 = b.2.1 ∧ a.2.2 ≤ b.2.2)))

instance : DecidableRel LocLe := fun a b => by unfold LocLe; infer_instance

/-- One row of `get_location_summary`. -/
structure LocRow where
  location_name : String
  latitude : ℚ
  longitude : ℚ
  species_count : Nat
  total_detections : Nat
deriving DecidableEq, Repr

/-- `get_location_summary` (`src/data_manager.py` 107-129) applied to a
loaded history. -/
def get_location_summary (history : List Entry) : List LocRow :=
  if history = [] then []
  else
    let rows := locRows history
    (sortedKeysOf LocLe locKey rows).map (fun k =>
      let g := grp locKey k rows
      { location_name := k.1
        latitude := k.2.1
        longitude := k.2.2
        species_count := ((g.map (fun e => e.species)).dedup).length
        total_detections := (g.map (fun e => e.count)).sum })

/-- The `["latitude", "longitude"]` group key of the app's Location
Analysis report. -/
def appLocKey (e : Entry) : ℚ × ℚ :=
  (e.latitude.getD 0, e.longitude.getD 0)

/-- Lexicographic order on the coordinate pair key. -/
def PairLe (a b : ℚ × ℚ) : Prop :=
  a.1 < b.1 ∨ (a.1 = b.1 ∧ a.2 ≤ b.2)

instance : DecidableRel PairLe := fun a b => by unfold PairLe; infer_instance

/-- One row of the app's Location Analysis summary. -/
structure AppLocRow where
  latitude : ℚ
  longitude : ℚ
  unique_species : Nat
  total_detections : Nat
  images_analyzed : Nat
deriving DecidableEq, Repr

/-- The Location Analysis aggregation of `src/app.py` 398-411:
`history_df.groupby(["latitude", "longitude"]).agg(unique_species=("species", "nunique"), total_detections=("count", "sum"), images_analyzed=("image_name", "nunique"))`.
(The surrounding page only runs it on a non-empty history.) -/
def location_summary_app (history : List Entry) : List AppLocRow :=
  let rows := locRows history
  (sortedKeysOf PairLe appLocKey rows).map (fun k =>
    let g := grp appLocKey k rows
    { latitude := k.1
      longitude := k.2
      unique_species := ((g.map (fun e => e.species)).dedup).length
      total_detections := (g.map (fun e => e.count)).sum
      images_analyzed := ((g.map (fun e => e.image_name)).dedup).length })

/-!
## Detection timeline (the Detection Timeline report, `src/app.py`
438-461): convert `timestamp` to datetime, truncate to the calendar
date, group by date, aggregate; pandas emits the groups in ascending
key order.
-/

/-- One row of the Detection Timeline summary. -/
structure TimelineRow where
  date : Nat
  species_count : Nat
  total_detections : Nat
  images : Nat
deriving DecidableEq, Repr

/-- The Detection Timeline aggregation of `src/app.py` 438-461:
`history_df.groupby("date").agg(species_count=("species", "nunique"), total_detections=("count", "sum"), images=("image_name", "nunique"))`
where `date = pd.to_datetime(timestamp).dt.date`. -/
def detection_timeline (history : List Entry) : List TimelineRow :=
  (sortedKeysOf (· ≤ ·) (fun e : Entry => e.timestamp.date) history).map (fun d =>
    let g := grp (fun e : Entry => e.timestamp.date) d history
    { date := d
      species_count := ((g.map (fun e => e.species)).dedup).length
      total_detections := (g.map (fun e => e.count)).sum
      images := ((g.map (fun e => e.image_name)).dedup).length })

/-!
## Concrete example data

`mkEx` builds an event with all optional descriptive fields absent, as
the store produces for a detector result lacking them.
-/

/-- Event builder for the concrete examples. -/
def mkEx (did : String) (ts : DateTime) (img sp : String) (conf : ℚ) (cnt : Nat)
    (lat lon : ℚ) (ln : String) : Entry :=
  { detection_id := did, timestamp := ts, image_name := img, species := sp
    confidence := conf, count := cnt, latitude := some lat, longitude := some lon
    location_name := ln, scientific_name := none, weight_range := none
    height_range := none, conservation_status := none, habitat := none
    description := none, detected_at := none }

/-- First red-fox event of the spec's species-summary example. -/
def exFox1 : Entry := mkEx "d1" ⟨20250101, 43200⟩ "img1.jpg" "red fox" (9/10) 2 1 2 "Site A"

/-- Second red-fox event of the spec's species-summary example. -/
def exFox2 : Entry := mkEx "d2" ⟨20250101, 43300⟩ "img2.jpg" "red fox" (7/10) 1 1 2 "Site A"

/-- Coyote event of the spec's species-summary example. -/
def exCoyote : Entry := mkEx "d3" ⟨20250101, 43400⟩ "img3.jpg" "coyote" (6/10) 1 1 2 "Site A"

/-- The three-event log of the spec's species-summary example. -/
def exSpeciesLog : List Entry := [exFox1, exFox2, exCoyote]

/-- Two events sharing one `detection_id` (one analysis run, same
species twice): the row count differs from the distinct-id count. -/
def exSharedLog : List Entry :=
  [ mkEx "d1" ⟨20250101, 100⟩ "img1.jpg" "red fox" 1 1 1 2 "Site A"
  , mkEx "d1" ⟨20250101, 100⟩ "img1.jpg" "red fox" 1 1 1 2 "Site A" ]

/-- Two events with identical coordinates but different
`location_name`s. -/
def exMergeLog : List Entry :=
  [ mkEx "d1" ⟨20250101, 100⟩ "img1.jpg" "red fox" 1 1 1 2 "Site A"
  , mkEx "d2" ⟨20250101, 200⟩ "img2.jpg" "coyote" 1 1 1 2 "Site B" ]

/-- Two events with the same `location_name` but different latitudes. -/
def exSplitLog : List Entry :=
  [ mkEx "d1" ⟨20250101, 100⟩ "img1.jpg" "red fox" 1 1 1 2 "Site A"
  , mkEx "d2" ⟨20250101, 200⟩ "img2.jpg" "coyote" 1 1 3 2 "Site A" ]

/-- Event on 2025-01-01 (export-filtering example). -/
def exJan01 : Entry := mkEx "d1" ⟨20250101, 30000⟩ "a.jpg" "red fox" 1 1 1 2 "Site A"

/-- Event on 2025-01-15 (export-filtering example). -/
def exJan15 : Entry := mkEx "d2" ⟨20250115, 30000⟩ "b.jpg" "coyote" 1 1 1 2 "Site A"

/-- Event on 2025-02-01 (export-filtering example). -/
def exFeb01 : Entry := mkEx "d3" ⟨20250201, 30000⟩ "c.jpg" "bobcat" 1 1 1 2 "Site A"

/-- The three-event log of the spec's export-filtering example. -/
def exportExLog : List Entry := [exJan01, exJan15, exFeb01]

/-- Timeline example: the 2025-01-02 event inserted before the
2025-01-01 event. -/
def exTimelineLog : List Entry :=
  [ mkEx "d1" ⟨20250102, 100⟩ "a.jpg" "red fox" 1 1 1 2 "Site A"
  , mkEx "d2" ⟨20250101, 200⟩ "b.jpg" "coyote" 1 2 1 2 "Site A" ]

/-!
## Support lemmas
-/

/-- The empty-history early return of `get_species_summary` coincides
with the general group-by branch, so the summary is the group-by for
every history. -/
theorem get_species_summary_eq (history : List Entry) :
    get_species_summary history =
      (sortedKeysOf strLe (fun e : Entry => e.species) history).map (fun sp =>
        let g := grp (fun e : Entry => e.species) sp history
        { species := sp
          count := (g.map (fun e => e.count)).sum
          avg_confidence := (g.map (fun e => e.confidence)).sum / (g.length : ℚ)
          detections := (g.map (fun e => e.detection_id)).length }) := by
  by_cases h : history = []
  · subst h; rfl
  · simp [get_species_summary, h]

/-- Likewise for `get_location_summary`. -/
theorem get_location_summary_eq (history : List Entry) :
    get_location_summary history =
      (sortedKeysOf LocLe locKey (locRows history)).map (fun k =>
        let g := grp locKey k (locRows history)
        { location_name := k.1
          latitude := k.2.1
          longitude := k.2.2
          species_count := ((g.map (fun e => e.species)).dedup).length
          total_detections := (g.map (fun e => e.count)).sum }) := by
  by_cases h : history = []
  · subst h; rfl
  · simp [get_location_summary, h]

/-- A group of the triple-keyed location grouping, written as one filter
over the full history: an entry matches the key `k` iff its name and
(present) coordinates equal `k`. -/
theorem grp_locKey_eq_filter (history : List Entry) (k : String × ℚ × ℚ) :
    grp locKey k (locRows history) =
      history.filter (fun e =>
        decide (e.location_name = k.1 ∧ e.latitude = some k.2.1 ∧ e.longitude = some k.2.2)) := by
  unfold grp locRows
  rw [List.filter_filter]
  apply List.filter_congr
  intro e _
  cases hl : e.latitude <;> cases ho : e.longitude <;>
    simp [locKey, hl, ho, Prod.ext_iff, and_assoc]

/-- A group of the pair-keyed location grouping, written as one filter
over the full history. -/
theorem grp_appLocKey_eq_filter (history : List Entry) (k : ℚ × ℚ) :
    grp appLocKey k (locRows history) =
      history.filter (fun e =>
        decide (e.latitude = some k.1 ∧ e.longitude = some k.2)) := by
  unfold grp locRows
  rw [List.filter_filter]
  apply List.filter_congr
  intro e _
  cases hl : e.latitude <;> cases ho : e.longitude <;>
    simp [appLocKey, hl, ho, Prod.ext_iff]

theorem mem_locRows {history : List Entry} {e : Entry} :
    e ∈ locRows history ↔ e ∈ history ∧ e.latitude.isSome ∧ e.longitude.isSome := by
  simp [locRows, List.mem_filter]

theorem locKey_eq_iff {e : Entry} {k : String × ℚ × ℚ}
    (h1 : e.latitude.isSome) (h2 : e.longitude.isSome) :
    locKey e = k
      ↔ (e.location_name = k.1 ∧ e.latitude = some k.2.1 ∧ e.longitude = some k.2.2) := by
  cases hl : e.latitude with
  | none => rw [hl] at h1; simp at h1
  | some x =>
    cases ho : e.longitude with
    | none => rw [ho] at h2; simp at h2
    | some y => simp [locKey, hl, ho, Prod.ext_iff]

theorem appLocKey_eq_iff {e : Entry} {k : ℚ × ℚ}
    (h1 : e.latitude.isSome) (h2 : e.longitude.isSome) :
    appLocKey e = k ↔ (e.latitude = some k.1 ∧ e.longitude = some k.2) := by
  cases hl : e.latitude with
  | none => rw [hl] at h1; simp at h1
  | some x =>
    cases ho : e.longitude with
    | none => rw [ho] at h2; simp at h2
    | some y => simp [appLocKey, hl, ho, Prod.ext_iff]

theorem species_row_mem_summary {history : List Entry} {sp : String}
    (h : sp ∈ history.map Entry.species) :
    SpeciesRow.mk sp
        ((history.filter (fun e => decide (e.species = sp))).map Entry.count).sum
        (((history.filter (fun e => decide (e.species = sp))).map Entry.confidence).sum
          / ((history.filter (fun e => decide (e.species = sp))).length : ℚ))
        ((history.filter (fun e => decide (e.species = sp))).length)
      ∈ get_species_summary history := by
  rw [get_species_summary_eq]
  refine List.mem_map.mpr ⟨sp, mem_sortedKeysOf.mpr ?_, ?_⟩
  · simpa using h
  · simp [grp, List.length_map]

theorem species_summary_row_stats {history : List Entry} {row : SpeciesRow}
    (h : row ∈ get_species_summary history) :
    row.species ∈ history.map Entry.species
    ∧ row.count
        = ((history.filter (fun e => decide (e.species = row.species))).map Entry.count).sum
    ∧ row.avg_confidence
        = ((history.filter (fun e => decide (e.species = row.species))).map Entry.confidence).sum
          / ((history.filter (fun e => decide (e.species = row.species))).length : ℚ)
    ∧ row.detections
        = (history.filter (fun e => decide (e.species = row.species))).length := by
  rw [get_species_summary_eq] at h
  obtain ⟨sp, hsp, rfl⟩ := List.mem_map.mp h
  obtain ⟨a, ha, hak⟩ := mem_sortedKeysOf.mp hsp
  refine ⟨List.mem_map.mpr ⟨a, ha, hak⟩, ?_, ?_, ?_⟩ <;> simp [grp, List.length_map]

theorem loc_row_mem_summary {history : List Entry} {e : Entry} {la lo : ℚ}
    (he : e ∈ history) (hla : e.latitude = some la) (hlo : e.longitude = some lo) :
    ∃ row ∈ get_location_summary history,
      row.location_name = e.location_name ∧ row.latitude = la ∧ row.longitude = lo := by
  rw [get_location_summary_eq]
  have hk : (e.location_name, la, lo) ∈ sortedKeysOf LocLe locKey (locRows history) :=
    mem_sortedKeysOf.mpr
      ⟨e, mem_locRows.mpr ⟨he, by simp [hla], by simp [hlo]⟩, by simp [locKey, hla, hlo]⟩
  exact ⟨_, List.mem_map.mpr ⟨(e.location_name, la, lo), hk, rfl⟩, rfl, rfl, rfl⟩

theorem loc_summary_row_stats {history : List Entry} {row : LocRow}
    (h : row ∈ get_location_summary history) :
    (∃ e ∈ history, e.location_name = row.location_name
        ∧ e.latitude = some row.latitude ∧ e.longitude = some row.longitude)
    ∧ row.species_count
        = (((history.filter (fun e => decide (e.location_name = row.location_name
              ∧ e.latitude = some row.latitude ∧ e.longitude = some row.longitude))).map
                Entry.species).dedup).length
    ∧ row.total_detections
        = ((history.filter (fun e => decide (e.location_name = row.location_name
              ∧ e.latitude = some row.latitude ∧ e.longitude = some row.longitude))).map
                Entry.count).sum := by
  rw [get_location_summary_eq] at h
  obtain ⟨k, hk, rfl⟩ := List.mem_map.mp h
  obtain ⟨a, ha, hak⟩ := mem_sortedKeysOf.mp hk
  obtain ⟨hah, h1, h2⟩ := mem_locRows.mp ha
  refine ⟨⟨a, hah, (locKey_eq_iff h1 h2).mp hak⟩, ?_, ?_⟩ <;>
    simp [grp_locKey_eq_filter]

theorem app_loc_row_mem {history : List Entry} {e : Entry} {la lo : ℚ}
    (he : e ∈ history) (hla : e.latitude = some la) (hlo : e.longitude = some lo) :
    ∃ row ∈ location_summary_app history, row.latitude = la ∧ row.longitude = lo := by
  have hk : (la, lo) ∈ sortedKeysOf PairLe appLocKey (locRows history) :=
    mem_sortedKeysOf.mpr
      ⟨e, mem_locRows.mpr ⟨he, by simp [hla], by simp [hlo]⟩, by simp [appLocKey, hla, hlo]⟩
  exact ⟨_, List.mem_map.mpr ⟨(la, lo), hk, rfl⟩, rfl, rfl⟩

theorem app_loc_row_stats {history : List Entry} {row : AppLocRow}
    (h : row ∈ location_summary_app history) :
    (∃ e ∈ history, e.latitude = some row.latitude ∧ e.longitude = some row.longitude)
    ∧ row.unique_species
        = (((history.filter (fun e => decide (e.latitude = some row.latitude
              ∧ e.longitude = some row.longitude))).map Entry.species).dedup).length
    ∧ row.total_detections
        = ((history.filter (fun e => decide (e.latitude = some row.latitude
              ∧ e.longitude = some row.longitude))).map Entry.count).sum
    ∧ row.images_analyzed
        = (((history.filter (fun e => decide (e.latitude = some row.latitude
              ∧ e.longitude = some row.longitude))).map Entry.image_name).dedup).length := by
  obtain ⟨k, hk, rfl⟩ := List.mem_map.mp h
  obtain ⟨a, ha, hak⟩ := mem_sortedKeysOf.mp hk
  obtain ⟨hah, h1, h2⟩ := mem_locRows.mp ha
  refine ⟨⟨a, hah, (appLocKey_eq_iff h1 h2).mp hak⟩, ?_, ?_, ?_⟩ <;>
    simp [grp_appLocKey_eq_filter]

theorem timeline_row_mem {history : List Entry} {d : Nat}
    (h : d ∈ history.map (fun e => e.timestamp.date)) :
    TimelineRow.mk d
        ((((history.filter (fun e => decide (e.timestamp.date = d))).map
            Entry.species).dedup).length)
        (((history.filter (fun e => decide (e.timestamp.date = d))).map Entry.count).sum)
        ((((history.filter (fun e => decide (e.timestamp.date = d))).map
            Entry.image_name).dedup).length)
      ∈ detection_timeline history := by
  refine List.mem_map.mpr ⟨d, mem_sortedKeysOf.mpr ?_, ?_⟩
  · simpa using h
  · simp [grp]

theorem timeline_row_stats {history : List Entry} {row : TimelineRow}
    (h : row ∈ detection_timeline history) :
    row.date ∈ history.map (fun e => e.timestamp.date)
    ∧ row.species_count
        = (((history.filter (fun e => decide (e.timestamp.date = row.date))).map
            Entry.species).dedup).length
    ∧ row.total_detections
        = ((history.filter (fun e => decide (e.timestamp.date = row.date))).map Entry.count).sum
    ∧ row.images
        = (((history.filter (fun e => decide (e.timestamp.date = row.date))).map
            Entry.image_name).dedup).length := by
  obtain ⟨dd, hd, rfl⟩ := List.mem_map.mp h
  obtain ⟨a, ha, hak⟩ := mem_sortedKeysOf.mp hd
  refine ⟨List.mem_map.mpr ⟨a, ha, hak⟩, ?_, ?_, ?_⟩ <;> simp [grp]

theorem timeline_dates_sorted (history : List Entry) :
    List.Sorted (· ≤ ·) ((detection_timeline history).map TimelineRow.date) := by
  have hmap : (detection_timeline history).map TimelineRow.date
      = sortedKeysOf (· ≤ ·) (fun e : Entry => e.timestamp.date) history := by
    rw [detection_timeline, List.map_map]
    exact List.map_id _
  rw [hmap]
  exact List.sorted_insertionSort _ _

/-!
## Claim theorems
-/

/-- Claim C5: `load()` never fails: an absent store file is initialized
to an empty log and an empty sequence is returned, a subsequent load
still returns an empty sequence, and an unreadable or structurally
invalid store file also yields an empty sequence rather than an error
(`load_detection_history` is total). -/
theorem load_never_fails :
    load_detection_history StoreFile.absent = ([], StoreFile.valid [])
    ∧ (load_detection_history (load_detection_history StoreFile.absent).2).1 = []
    ∧ (load_detection_history StoreFile.corrupt).1 = [] :=
  ⟨rfl, rfl, rfl⟩

/-- Claim C4: appending a detection record succeeds whatever optional
descriptive fields it lacks (`save_detection_results` is total in `r`),
the new event is persisted at the end of the log, and each of the seven
optional descriptive fields is present on the stored event exactly when
the producer supplied it — absent fields are omitted (`none`), never
null-filled, and present fields are persisted verbatim. -/
theorem save_partial_fields (s : StoreFile) (did : String) (ts : DateTime)
    (img : String) (loc : Location) (r : DetectionResult) :
    (load_detection_history (save_detection_results did ts img loc [r] s)).1
      = (load_detection_history s).1 ++ [mkEntry did ts img loc r]
    ∧ (mkEntry did ts img loc r).scientific_name = r.scientific_name
    ∧ (mkEntry did ts img loc r).weight_range = r.weight_range
    ∧ (mkEntry did ts img loc r).height_range = r.height_range
    ∧ (mkEntry did ts img loc r).conservation_status = r.conservation_status
    ∧ (mkEntry did ts img loc r).habitat = r.habitat
    ∧ (mkEntry did ts img loc r).description = r.description
    ∧ (mkEntry did ts img loc r).detected_at = r.detected_at := by
  refine ⟨?_, rfl, rfl, rfl, rfl, rfl, rfl, rfl⟩
  simp [save_detection_results, load_detection_history]

/-- Claim C6: for every prior log contents and events `e1`, `e2`,
appending `[e1, e2]` and then loading yields exactly the prior contents
followed by `e1` then `e2`; the pre-existing events are untouched. -/
theorem append_round_trip (prior : List Entry) (did : String) (ts : DateTime)
    (img : String) (loc : Location) (r1 r2 : DetectionResult) :
    (load_detection_history
        (save_detection_results did ts img loc [r1, r2] (StoreFile.valid prior))).1
      = prior ++ [mkEntry did ts img loc r1, mkEntry did ts img loc r2] := by
  simp [save_detection_results, load_detection_history]

/-- Claim C9: `clear()` replaces the log with an empty one and returns
`true`; a failing write yields `false`, not an exception; after a
successful clear a subsequent `load()` returns an empty sequence
whatever the prior contents. -/
theorem clear_then_load (s : StoreFile) :
    clear_detection_history true s = (true, StoreFile.valid [])
    ∧ (load_detection_history (clear_detection_history true s).2).1 = []
    ∧ (clear_detection_history false s).1 = false :=
  ⟨rfl, rfl, rfl⟩

/-- Claim C10: appending an empty results list never fails and is an
identity on the persisted event sequence: the store is rewritten (it
always ends up a valid file) but a subsequent `load()` returns exactly
the events it returned before. -/
theorem append_empty_identity (s : StoreFile) (did : String) (ts : DateTime)
    (img : String) (loc : Location) :
    (load_detection_history (save_detection_results did ts img loc [] s)).1
      = (load_detection_history s).1
    ∧ save_detection_results did ts img loc [] s
      = StoreFile.valid (load_detection_history s).1 := by
  cases s <;> simp [save_detection_results, load_detection_history]

/-- Claim C3 counterexample: a one-event log whose event lies outside
the requested date range filters to the empty set, yet the export
returns a written file containing zero events (`some []`), not the null
path the claim asserts. -/
theorem export_empty_filter_writes_file :
    export_detection_data (StoreFile.valid [exFeb01])
        (some ⟨20250110, 0⟩) (some ⟨20250131, 0⟩) ExportFormat.csv = some []
    ∧ export_detection_data (StoreFile.valid [exFeb01])
        (some ⟨20250110, 0⟩) (some ⟨20250131, 0⟩) ExportFormat.csv ≠ none := by
  exact ⟨rfl, by decide⟩

/-- Claim C3 (amended): the export returns the null path exactly when
the loaded log itself is empty (absent, corrupt, or holding `[]`); a
non-empty log always produces a file path, even when date filtering
leaves no rows, and the operation never raises (it is total). -/
theorem export_none_iff (s : StoreFile) (start_date end_date : Option DateTime)
    (fmt : ExportFormat) :
    export_detection_data s start_date end_date fmt = none
      ↔ (load_detection_history s).1 = [] := by
  by_cases h : (load_detection_history s).1 = [] <;>
    simp [export_detection_data, h]

/-- Claim C7: export keeps exactly the events whose timestamp lies in
the closed interval `[start_date, end_date]`, each bound being
open-ended when omitted; on the spec's example log (events on
2025-01-01, 2025-01-15, 2025-02-01) the range 2025-01-10 .. 2025-01-31
exports exactly the 2025-01-15 event. -/
theorem export_filters_closed_interval :
    (∀ (history : List Entry) (start_date end_date : Option DateTime) (fmt : ExportFormat),
        history ≠ [] →
        export_detection_data (StoreFile.valid history) start_date end_date fmt
          = some (history.filter (fun e =>
              start_date.all (fun d => decide (DateTime.le d e.timestamp))
                && end_date.all (fun d => decide (DateTime.le e.timestamp d)))))
    ∧ export_detection_data (StoreFile.valid exportExLog)
        (some ⟨20250110, 0⟩) (some ⟨20250131, 0⟩) ExportFormat.csv = some [exJan15] := by
  constructor
  · intro history sd ed fmt hne
    unfold export_detection_data
    simp only [load_detection_history, if_neg hne]
    cases sd <;> cases ed <;>
      simp [filterStart, filterEnd, List.filter_filter, Option.all, Bool.and_comm]
  · rfl

/-- Witness for C7: the general filtering statement applied to the
spec's concrete example log with both bounds omitted. -/
theorem export_filters_closed_interval_witness :
    exportExLog ≠ []
    ∧ export_detection_data (StoreFile.valid exportExLog) none none ExportFormat.csv
      = some (exportExLog.filter (fun e =>
          (none : Option DateTime).all (fun d => decide (DateTime.le d e.timestamp))
            && (none : Option DateTime).all (fun d => decide (DateTime.le e.timestamp d)))) :=
  ⟨by decide, export_filters_closed_interval.1 exportExLog none none ExportFormat.csv (by decide)⟩

/-- Claim C1: the species summary groups rows by `species`: every
species occurring in the log has exactly one summary row (distinct
species names, none for absent species), whose `count` is the sum of the
group's `count` fields, whose `avg_confidence` is the unweighted mean of
its `confidence` fields, and whose `detections` is the group's row count
(not its distinct-`detection_id` count — see the shared-id log, two rows
with one id giving `detections = 2`); an empty log yields an empty
summary, and on the spec's three-event example the rows are
red fox (3, 0.8, 2) and coyote (1, 0.6, 1). -/
theorem species_summary_correct :
    (∀ (history : List Entry) (sp : String),
        sp ∈ history.map Entry.species →
        SpeciesRow.mk sp
            ((history.filter (fun e => decide (e.species = sp))).map Entry.count).sum
            (((history.filter (fun e => decide (e.species = sp))).map Entry.confidence).sum
              / ((history.filter (fun e => decide (e.species = sp))).length : ℚ))
            ((history.filter (fun e => decide (e.species = sp))).length)
          ∈ get_species_summary history)
    ∧ (∀ (history : List Entry) (row : SpeciesRow),
        row ∈ get_species_summary history →
        row.species ∈ history.map Entry.species
        ∧ row.count
            = ((history.filter (fun e => decide (e.species = row.species))).map Entry.count).sum
        ∧ row.avg_confidence
            = ((history.filter (fun e => decide (e.species = row.species))).map
                Entry.confidence).sum
              / ((history.filter (fun e => decide (e.species = row.species))).length : ℚ)
        ∧ row.detections
            = (history.filter (fun e => decide (e.species = row.species))).length)
    ∧ (∀ history : List Entry, ((get_species_summary history).map SpeciesRow.species).Nodup)
    ∧ get_species_summary [] = []
    ∧ (get_species_summary exSpeciesLog).map (fun r => (r.species, r.count, r.detections))
        = [("coyote", 1, 1), ("red fox", 3, 2)]
    ∧ (get_species_summary exSpeciesLog).map SpeciesRow.avg_confidence = [6/10, 8/10]
    ∧ (get_species_summary exSharedLog).map (fun r => (r.species, r.detections))
        = [("red fox", 2)] := by
  refine ⟨fun history sp h => species_row_mem_summary h,
    fun history row h => species_summary_row_stats h, ?_, rfl, by decide, ?_, by decide⟩
  · intro history
    rw [get_species_summary_eq, List.map_map]
    have hid : (SpeciesRow.species ∘ fun sp =>
        let g := grp (fun e : Entry => e.species) sp history
        SpeciesRow.mk sp ((g.map (fun e => e.count)).sum)
          ((g.map (fun e => e.confidence)).sum / (g.length : ℚ))
          ((g.map (fun e => e.detection_id)).length)) = id := rfl
    rw [hid, List.map_id]
    exact nodup_sortedKeysOf
  · have hkeys : sortedKeysOf strLe (fun e : Entry => e.species) exSpeciesLog
        = ["coyote", "red fox"] := by decide
    have hg1 : grp (fun e : Entry => e.species) "coyote" exSpeciesLog = [exCoyote] := rfl
    have hg2 : grp (fun e : Entry => e.species) "red fox" exSpeciesLog
        = [exFox1, exFox2] := rfl
    rw [get_species_summary_eq, hkeys]
    simp only [List.map_cons, List.map_nil, hg1, hg2]
    norm_num [exCoyote, exFox1, exFox2, mkEx]

/-- Witness for C1: the general row-existence statement applied to the
spec's example log at species `"red fox"`. -/
theorem species_summary_correct_witness :
    "red fox" ∈ exSpeciesLog.map Entry.species
    ∧ SpeciesRow.mk "red fox"
        ((exSpeciesLog.filter (fun e => decide (e.species = "red fox"))).map Entry.count).sum
        (((exSpeciesLog.filter (fun e => decide (e.species = "red fox"))).map
            Entry.confidence).sum
          / ((exSpeciesLog.filter (fun e => decide (e.species = "red fox"))).length : ℚ))
        ((exSpeciesLog.filter (fun e => decide (e.species = "red fox"))).length)
      ∈ get_species_summary exSpeciesLog :=
  ⟨by decide, species_summary_correct.1 exSpeciesLog "red fox" (by decide)⟩

/-- Claim C2 counterexample: the only location summary that reports
`images_analyzed` (the app's Location Analysis) does not group by the
composite key (location_name, latitude, longitude): two events with
distinct `location_name`s but identical coordinates land in a single
group, where the claim requires two. -/
theorem location_summary_app_merges_names :
    exMergeLog.map Entry.location_name = ["Site A", "Site B"]
    ∧ (location_summary_app exMergeLog).length = 1 := by
  exact ⟨by decide, by decide⟩

/-- Claim C2 (amended): `get_location_summary` groups by the composite
key (location_name, latitude, longitude) — distinct triples give
distinct rows, so two events with the same name but different latitudes
form two groups — and reports `species_count` = distinct species and
`total_detections` = sum of `count`, but no image aggregate; the app's
Location Analysis reports `unique_species`, `total_detections` and
`images_analyzed` = distinct `image_name` count, but groups by
(latitude, longitude) only, merging events that differ only in
`location_name`.  Events lacking a coordinate take part in neither
grouping (pandas drops NaN group keys). -/
theorem location_summaries_correct :
    (∀ (history : List Entry) (row : LocRow),
        row ∈ get_location_summary history →
        (∃ e ∈ history, e.location_name = row.location_name
            ∧ e.latitude = some row.latitude ∧ e.longitude = some row.longitude)
        ∧ row.species_count
            = (((history.filter (fun e => decide (e.location_name = row.location_name
                  ∧ e.latitude = some row.latitude ∧ e.longitude = some row.longitude))).map
                    Entry.species).dedup).length
        ∧ row.total_detections
            = ((history.filter (fun e => decide (e.location_name = row.location_name
                  ∧ e.latitude = some row.latitude ∧ e.longitude = some row.longitude))).map
                    Entry.count).sum)
    ∧ (∀ (history : List Entry) (e : Entry) (la lo : ℚ),
        e ∈ history → e.latitude = some la → e.longitude = some lo →
        ∃ row ∈ get_location_summary history,
          row.location_name = e.location_name ∧ row.latitude = la ∧ row.longitude = lo)
    ∧ (∀ history : List Entry,
        ((get_location_summary history).map
          (fun r => (r.location_name, r.latitude, r.longitude))).Nodup)
    ∧ (∀ (history : List Entry) (row : AppLocRow),
        row ∈ location_summary_app history →
        (∃ e ∈ history, e.latitude = some row.latitude ∧ e.longitude = some row.longitude)
        ∧ row.unique_species
            = (((history.filter (fun e => decide (e.latitude = some row.latitude
                  ∧ e.longitude = some row.longitude))).map Entry.species).dedup).length
        ∧ row.total_detections
            = ((history.filter (fun e => decide (e.latitude = some row.latitude
                  ∧ e.longitude = some row.longitude))).map Entry.count).sum
        ∧ row.images_analyzed
            = (((history.filter (fun e => decide (e.latitude = some row.latitude
                  ∧ e.longitude = some row.longitude))).map Entry.image_name).dedup).length)
    ∧ (∀ (history : List Entry) (e : Entry) (la lo : ℚ),
        e ∈ history → e.latitude = some la → e.longitude = some lo →
        ∃ row ∈ location_summary_app history, row.latitude = la ∧ row.longitude = lo)
    ∧ (∀ history : List Entry,
        ((location_summary_app history).map (fun r => (r.latitude, r.longitude))).Nodup)
    ∧ (get_location_summary exSplitLog).length = 2
    ∧ (location_summary_app exMergeLog).map
        (fun r => (r.latitude, r.longitude, r.unique_species, r.total_detections,
          r.images_analyzed))
        = [(1, 2, 2, 2, 2)] := by
  refine ⟨fun history row h => loc_summary_row_stats h,
    fun history e la lo he hla hlo => loc_row_mem_summary he hla hlo, ?_,
    fun history row h => app_loc_row_stats h,
    fun history e la lo he hla hlo => app_loc_row_mem he hla hlo, ?_,
    by decide, by decide⟩
  · intro history
    rw [get_location_summary_eq, List.map_map]
    have hid : ((fun r : LocRow => (r.location_name, r.latitude, r.longitude)) ∘ fun k =>
        let g := grp locKey k (locRows history)
        LocRow.mk k.1 k.2.1 k.2.2 (((g.map (fun e => e.species)).dedup).length)
          ((g.map (fun e => e.count)).sum)) = id := rfl
    rw [hid, List.map_id]
    exact nodup_sortedKeysOf
  · intro history
    rw [location_summary_app, List.map_map]
    have hid : ((fun r : AppLocRow => (r.latitude, r.longitude)) ∘ fun k =>
        let g := grp appLocKey k (locRows history)
        AppLocRow.mk k.1 k.2 (((g.map (fun e => e.species)).dedup).length)
          ((g.map (fun e => e.count)).sum)
          (((g.map (fun e => e.image_name)).dedup).length)) = id := rfl
    rw [hid, List.map_id]
    exact nodup_sortedKeysOf

/-- Witness for C2: the amended per-group statements applied to the
concrete merged log at its first event's coordinates. -/
theorem location_summaries_correct_witness :
    (mkEx "d1" ⟨20250101, 100⟩ "img1.jpg" "red fox" 1 1 1 2 "Site A") ∈ exMergeLog
    ∧ ∃ row ∈ location_summary_app exMergeLog, row.latitude = 1 ∧ row.longitude = 2 :=
  ⟨by decide, location_summaries_correct.2.2.2.2.1 exMergeLog
    (mkEx "d1" ⟨20250101, 100⟩ "img1.jpg" "red fox" 1 1 1 2 "Site A") 1 2
    (by decide) rfl rfl⟩

/-- Claim C8: the detection timeline groups events by the calendar date
truncated from the timestamp: every occurring date has exactly one row
(distinct dates, none for absent dates) with `species_count` = distinct
species that day, `total_detections` = sum of `count`, and `images` =
distinct image names that day; the rows are sorted ascending by date
regardless of insertion order (the example log inserts 2025-01-02
before 2025-01-01 and still reads out 01-01 first). -/
theorem detection_timeline_correct :
    (∀ history : List Entry,
        List.Sorted (· ≤ ·) ((detection_timeline history).map TimelineRow.date))
    ∧ (∀ (history : List Entry) (d : Nat),
        d ∈ history.map (fun e => e.timestamp.date) →
        TimelineRow.mk d
            ((((history.filter (fun e => decide (e.timestamp.date = d))).map
                Entry.species).dedup).length)
            (((history.filter (fun e => decide (e.timestamp.date = d))).map Entry.count).sum)
            ((((history.filter (fun e => decide (e.timestamp.date = d))).map
                Entry.image_name).dedup).length)
          ∈ detection_timeline history)
    ∧ (∀ (history : List Entry) (row : TimelineRow),
        row ∈ detection_timeline history →
        row.date ∈ history.map (fun e => e.timestamp.date)
        ∧ row.species_count
            = (((history.filter (fun e => decide (e.timestamp.date = row.date))).map
                Entry.species).dedup).length
        ∧ row.total_detections
            = ((history.filter (fun e => decide (e.timestamp.date = row.date))).map
                Entry.count).sum
        ∧ row.images
            = (((history.filter (fun e => decide (e.timestamp.date = row.date))).map
                Entry.image_name).dedup).length)
    ∧ (∀ history : List Entry, ((detection_timeline history).map TimelineRow.date).Nodup)
    ∧ (detection_timeline exTimelineLog).map
        (fun r => (r.date, r.species_count, r.total_detections, r.images))
        = [(20250101, 1, 2, 1), (20250102, 1, 1, 1)] := by
  refine ⟨timeline_dates_sorted, fun history d h => timeline_row_mem h,
    fun history row h => timeline_row_stats h, ?_, by decide⟩
  intro history
  have hmap : (detection_timeline history).map TimelineRow.date
      = sortedKeysOf (· ≤ ·) (fun e : Entry => e.timestamp.date) history := by
    rw [detection_timeline, List.map_map]
    exact List.map_id _
  rw [hmap]
  exact nodup_sortedKeysOf

/-- Witness for C8: the row-existence statement applied to the concrete
two-event log at date 2025-01-01. -/
theorem detection_timeline_correct_witness :
    20250101 ∈ exTimelineLog.map (fun e => e.timestamp.date)
    ∧ TimelineRow.mk 20250101
        ((((exTimelineLog.filter (fun e => decide (e.timestamp.date = 20250101))).map
            Entry.species).dedup).length)
        (((exTimelineLog.filter (fun e => decide (e.timestamp.date = 20250101))).map
            Entry.count).sum)
        ((((exTimelineLog.filter (fun e => decide (e.timestamp.date = 20250101))).map
            Entry.image_name).dedup).length)
      ∈ detection_timeline exTimelineLog :=
  ⟨by decide, detection_timeline_correct.2.1 exTimelineLog 20250101 (by decide)⟩

end BioWatch
